import Mathlib

/-!
A shallow embedding of the interactive A2A command-line client found in
`version_5_a2a_sdk/client/client.py`, together with proofs about its
conversation-driving behavior.

The embedding models:
- the outbound `Message` construction of `build_message` (Python truthiness
  of the optional `task_id` / `context_id` arguments included);
- the rendering helper `print_json_response`, with the external formatting
  pipeline (pydantic `model_dump`, `json.dumps`, terminal highlighting)
  abstracted as its outcome;
- the unified submit-and-drain operation `handle_message`, as a deterministic
  interpreter over an environment consisting of the operator's pending input
  lines and a script assigning, to each successive submission, the sequence of
  response items the collaborator client yields (plus an optional exception
  the iterator raises after those items);
- the `interactive_loop` read-eval loop.

Effects (`print`, `input`, `client.send_message`) are reified as an event
trace; exceptions are reified in an `Outcome` value. `uuid4().hex` is
modelled as an injective supply of fresh identifiers indexed by an invocation
counter threaded through the interpreter. Recursion of `handle_message` is
bounded by a fuel parameter; `none` results mean only that the fuel or the
environment script did not cover the run, never a behavior of the program.
-/

namespace A2AClient

/-- Sender role of a message (`a2a.types.Role`); this client only uses `user`. -/
inductive Role where
  | user
  | agent
deriving DecidableEq, Repr

/-- A content part, as constructed by the client: `Part(kind="text", text=text)`. -/
structure Part where
  kind : String
  text : String
deriving DecidableEq, Repr

/-- The outbound message built by `build_message` (the fields the client sets). -/
structure Message where
  role : Role
  parts : List Part
  messageId : String
  taskId : Option String
  contextId : Option String
deriving DecidableEq, Repr

/-- Task states of `a2a.types.TaskState`. -/
inductive TaskState where
  | submitted
  | working
  | input_required
  | completed
  | canceled
  | failed
  | rejected
  | auth_required
  | unknown
deriving DecidableEq, Repr

/-- The status of a task; the client reads only its `state` field. -/
structure TaskStatus where
  state : TaskState
deriving DecidableEq, Repr

/-- A task snapshot; the client reads `id`, `context_id` and `status.state`. -/
structure Task where
  id : String
  context_id : String
  status : TaskStatus
deriving DecidableEq, Repr

/-- An update paired with a task snapshot in a streaming response item.
The client only renders it, so its content is opaque here. -/
structure Update where
  raw : String
deriving DecidableEq, Repr

/-- One item yielded by `client.send_message`: either a `(Task, Update)`
tuple (streaming) or a terminal message reply, rendered opaquely. -/
inductive ResponseItem where
  | pair (t : Task) (u : Update)
  | message (body : String)
deriving DecidableEq, Repr

/-- A Python exception relevant to the client: a `RuntimeError` carrying its
string, or any other exception (name and message). -/
inductive Exc where
  | runtimeError (msg : String)
  | other (name : String) (msg : String)
deriving DecidableEq, Repr

/-- What one call to `client.send_message` produces: the items the async
iterator yields in order, then optionally an exception it raises. -/
structure Response where
  items : List ResponseItem
  err : Option Exc
deriving DecidableEq, Repr

/-- Interpreter state: pending operator input lines, the script of responses
for successive submissions, and the uuid-supply counter. -/
structure HState where
  inputs : List String
  script : List Response
  ctr : Nat
deriving DecidableEq, Repr

/-- Observable events of a run, in order. -/
inductive Event where
  | queryPrompt (q : String)
  | submit (m : Message)
  | renderStreamingUpdate (t : Task) (u : Update)
  | renderAgentReply (body : String)
  | followUpPrompt (reply : String)
  | noResponse
  | disconnectWarning
  | exitMsg
deriving DecidableEq, Repr

/-- How a call finished: normal return, or an exception propagating out. -/
inductive Outcome where
  | ret
  | raised (e : Exc)
deriving DecidableEq, Repr

/-- Modelled from the spec and the standard library contract of
`uuid4().hex`: an injective supply of fresh identifiers, indexed by the
number of identifiers generated so far. -/
def uuid4_hex (n : Nat) : String :=
  String.mk (List.replicate n 'u')

/-- Python truthiness applied to an optional string, as in
`task_id if task_id else None`: `None` and the empty string map to `None`. -/
def truthy_or_none : Option String → Option String
  | none => none
  | some s => if s = "" then none else some s

/-- `build_message`, with the generated `uuid4().hex` value passed in. -/
def build_message (text : String) (task_id : Option String)
    (context_id : Option String) (uuid : String) : Message :=
  { role := Role.user
    parts := [{ kind := "text", text := text }]
    messageId := uuid
    taskId := truthy_or_none task_id
    contextId := truthy_or_none context_id }

/-- Does the second char list start with the first? -/
def starts_with : List Char → List Char → Bool
  | [], _ => true
  | _ :: _, [] => false
  | c :: cs, d :: ds => c = d && starts_with cs ds

/-- Does the needle occur in the char list? -/
def contains_chars (needle : List Char) : List Char → Bool
  | [] => starts_with needle []
  | c :: cs => starts_with needle (c :: cs) || contains_chars needle cs

/-- Substring test, modelling the Python expression `needle in hay`. -/
def contains_sub (hay needle : String) : Bool :=
  contains_chars needle.data hay.data

/-- Python `str.strip()` with no argument: remove leading and trailing
whitespace. -/
def py_strip (s : String) : String :=
  String.mk (((s.data.dropWhile Char.isWhitespace).reverse.dropWhile
    Char.isWhitespace).reverse)

/-- Python `str.lower()`, over the alphabet this client compares against
(ASCII keywords). -/
def py_lower (s : String) : String :=
  String.mk (s.data.map Char.toLower)

/-- The marker searched for in a caught `RuntimeError`. -/
def sai_marker : String :=
  "StopAsyncIteration"

/-- The disconnect test of `handle_message`: the exception is a
`RuntimeError` whose string mentions `StopAsyncIteration`. -/
def is_sai_error : Exc → Bool
  | Exc.runtimeError m => contains_sub m sai_marker
  | Exc.other _ _ => false

/-- Exception type name raised by Python `input()` at end of input. -/
def eof_name : String :=
  "EOFError"

/-- Exception message raised by Python `input()` at end of input. -/
def eof_msg : String :=
  "EOF when reading a line"

/-- The result of a run: its event trace, how it finished, and the final
environment state. -/
def RunResult : Type :=
  List Event × Outcome × HState

/-- One pass of the `async for` drain loop of `handle_message`, parameterized
by the submit operation `hm` used for the recursive call on an
`input-required` task. Mirrors lines 85-101 of `client.py`: a tuple item is
rendered as a streaming update and, when `task.status.state` equals
`input-required`, one more operator line is read and resubmitted with that
task's `id` and `context_id`, fully resolving before the remaining items are
drained; any non-tuple item is rendered as an agent reply. After the last
item the iterator's pending exception, if any, is raised. An exception
anywhere aborts the drain and propagates. -/
def drain_step (hm : HState → String → Option String → Option String → Option RunResult) :
    List ResponseItem → Option Exc → HState → Option RunResult
  | [], none, s => some ([], Outcome.ret, s)
  | [], some e, s => some ([], Outcome.raised e, s)
  | ResponseItem.pair t u :: rest, err, s =>
    if t.status.state = TaskState.input_required then
      match s.inputs with
      | [] =>
        some ([Event.renderStreamingUpdate t u],
          Outcome.raised (Exc.other eof_name eof_msg), s)
      | reply :: ins =>
        match hm ⟨ins, s.script, s.ctr⟩ reply (some t.id) (some t.context_id) with
        | none => none
        | some (ntr, Outcome.ret, s1) =>
          match drain_step hm rest err s1 with
          | none => none
          | some (rtr, o, s2) =>
            some (Event.renderStreamingUpdate t u :: Event.followUpPrompt reply ::
              (ntr ++ rtr), o, s2)
        | some (ntr, Outcome.raised e, s1) =>
          some (Event.renderStreamingUpdate t u :: Event.followUpPrompt reply :: ntr,
            Outcome.raised e, s1)
    else
      match drain_step hm rest err s with
      | none => none
      | some (rtr, o, s2) =>
        some (Event.renderStreamingUpdate t u :: rtr, o, s2)
  | ResponseItem.message body :: rest, err, s =>
    match drain_step hm rest err s with
    | none => none
    | some (rtr, o, s2) =>
      some (Event.renderAgentReply body :: rtr, o, s2)

/-- `handle_message` (lines 78-110 of `client.py`): build the outbound
message from the text and optional correlation identifiers using the next
fresh identifier, submit it (consuming the next scripted response), drain
the response items, report `no response` when the drain finished normally
with zero items, and filter a raised exception through the
`except RuntimeError` clause: a `RuntimeError` mentioning
`StopAsyncIteration` becomes a disconnect warning and a normal return, any
other exception propagates. Fuel bounds the recursion depth; `none` means
the fuel or the script was insufficient to determine the run. -/
def handle_message : Nat → HState → String → Option String → Option String → Option RunResult
  | 0, _, _, _, _ => none
  | fuel + 1, s, text, task_id, context_id =>
    match s.script with
    | [] => none
    | resp :: rest =>
      let msg := build_message text task_id context_id (uuid4_hex s.ctr)
      match drain_step (handle_message fuel) resp.items resp.err ⟨s.inputs, rest, s.ctr + 1⟩ with
      | none => none
      | some (dtr, Outcome.ret, s2) =>
        if resp.items.isEmpty then
          some (Event.submit msg :: (dtr ++ [Event.noResponse]), Outcome.ret, s2)
        else
          some (Event.submit msg :: dtr, Outcome.ret, s2)
      | some (dtr, Outcome.raised e, s2) =>
        if is_sai_error e then
          some (Event.submit msg :: (dtr ++ [Event.disconnectWarning]), Outcome.ret, s2)
        else
          some (Event.submit msg :: dtr, Outcome.raised e, s2)

/-- The drain loop as run inside `handle_message` at a given fuel:
recursive submissions go through `handle_message fuel`. -/
def drain_items (fuel : Nat) : List ResponseItem → Option Exc → HState → Option RunResult :=
  drain_step (handle_message fuel)

/-- The exit keywords of the interactive loop. -/
def exit_words : List String :=
  ["exit", "quit"]

/-- `interactive_loop` (lines 115-123 of `client.py`): read a line, strip
it, compare its lowercasing against the exit keywords; on a match terminate,
otherwise submit the stripped line as a brand-new query (no correlation
identifiers) and continue. Reading at end of input raises `EOFError`, as
Python `input()` does. -/
def interactive_loop : Nat → HState → Option (List Event × Outcome)
  | 0, _ => none
  | fuel + 1, s =>
    match s.inputs with
    | [] => some ([], Outcome.raised (Exc.other eof_name eof_msg))
    | q :: rest =>
      let query := py_strip q
      if py_lower query ∈ exit_words then
        some ([Event.queryPrompt query, Event.exitMsg], Outcome.ret)
      else
        match handle_message fuel ⟨rest, s.script, s.ctr⟩ query none none with
        | none => none
        | some (tr, Outcome.ret, s1) =>
          match interactive_loop fuel s1 with
          | none => none
          | some (tr2, o) => some (Event.queryPrompt query :: (tr ++ tr2), o)
        | some (tr, Outcome.raised e, _) =>
          some (Event.queryPrompt query :: tr, Outcome.raised e)

/-- Lines printed by `print_json_response`. -/
inductive PrintEvent where
  | header (title : String)
  | highlighted (json_str : String)
  | formatError (e : String)
  | rawRepr (r : String)
deriving DecidableEq, Repr

/-- `print_json_response` (lines 54-73 of `client.py`). The body of its
`try` block - the `root` / `model_dump` attribute dispatch, `json.dumps`
and the terminal highlighting, all external-library behavior - is
abstracted as its outcome `fmt`: either the pretty JSON string it prints,
or the message of the exception it raises. `payload_repr` stands for
`repr(response)`. The title line precedes the `try`; on a formatting
failure the `except Exception` fallback prints the error message and then
the raw representation, and nothing propagates. -/
def print_json_response (fmt : Except String String) (payload_repr : String)
    (title : String) : List PrintEvent :=
  PrintEvent.header title ::
    match fmt with
    | Except.ok j => [PrintEvent.highlighted j]
    | Except.error e => [PrintEvent.formatError e, PrintEvent.rawRepr payload_repr]

/-- Message construction at the n-th uuid generation, as performed by the
n-th call to `build_message` in a run: `build_message` applied to the n-th
fresh identifier of the supply. -/
def build_message_at (n : Nat) (text : String) (task_id context_id : Option String) : Message :=
  build_message text task_id context_id (uuid4_hex n)

/-- The fresh-identifier supply is injective: distinct generation indices
give distinct identifiers. -/
theorem uuid4_hex_injective : Function.Injective uuid4_hex := by
  intro m n h
  have hl := congrArg (fun s => s.data.length) h
  simpa [uuid4_hex] using hl

/-- C2, counterexample: the claim quantifies over every follow-up whose two
identifiers are supplied non-null, but supplying the non-null empty string
produces a message whose `taskId` is absent (`None`), not equal to the
supplied value: Python truthiness collapses `""` to `None`. -/
theorem build_message_empty_string_counterexample :
    (build_message "follow-up" (some "") (some "") (uuid4_hex 0)).taskId ≠ some "" := by
  decide

/-- C2 (amended): a message built for a brand-new conversation (no task or
context identifier supplied) has absent `taskId` and `contextId`; a message
built as a follow-up with both identifiers supplied non-null and non-empty
carries both identifiers equal to the ones supplied. -/
theorem build_message_correlation_ids (text uuid tid cid : String)
    (htid : tid ≠ "") (hcid : cid ≠ "") :
    (build_message text none none uuid).taskId = none ∧
    (build_message text none none uuid).contextId = none ∧
    (build_message text (some tid) (some cid) uuid).taskId = some tid ∧
    (build_message text (some tid) (some cid) uuid).contextId = some cid := by
  refine ⟨rfl, rfl, ?_, ?_⟩ <;>
    simp [build_message, truthy_or_none, htid, hcid]

/-- C2, witness for the amended claim at concrete inputs. -/
theorem build_message_correlation_ids_witness :
    "t1" ≠ "" ∧ "c1" ≠ "" ∧
    ((build_message "hello" none none (uuid4_hex 0)).taskId = none ∧
     (build_message "hello" none none (uuid4_hex 0)).contextId = none ∧
     (build_message "hello" (some "t1") (some "c1") (uuid4_hex 0)).taskId = some "t1" ∧
     (build_message "hello" (some "t1") (some "c1") (uuid4_hex 0)).contextId = some "c1") :=
  ⟨by decide, by decide,
    build_message_correlation_ids "hello" (uuid4_hex 0) "t1" "c1" (by decide) (by decide)⟩

/-- C10: supplying the empty string for the task or context identifier
yields `None` for that identifier, so a follow-up built with empty-string
correlation identifiers is the same message a brand-new conversation would
build (given the same text and the same generated identifier). -/
theorem build_message_empty_ids_like_new (text uuid : String) (cid tid : Option String) :
    (build_message text (some "") cid uuid).taskId = none ∧
    (build_message text tid (some "") uuid).contextId = none ∧
    build_message text (some "") (some "") uuid = build_message text none none uuid := by
  refine ⟨rfl, rfl, rfl⟩

/-- C9: two invocations of message construction with distinct generation
indices produce messages with distinct generated `messageId`s, whatever
texts and correlation identifiers they are given. -/
theorem build_message_distinct_message_ids
    (m n : Nat) (t1 t2 : String) (a1 b1 a2 b2 : Option String)
    (h : m ≠ n) :
    (build_message_at m t1 a1 b1).messageId ≠ (build_message_at n t2 a2 b2).messageId := by
  intro hc
  simp only [build_message_at, build_message] at hc
  exact h (uuid4_hex_injective hc)

/-- C9, witness at two concrete invocations. -/
theorem build_message_distinct_message_ids_witness :
    (0 : Nat) ≠ 1 ∧
    (build_message_at 0 "What time is it?" none none).messageId ≠
      (build_message_at 1 "again" (some "t1") (some "c1")).messageId :=
  ⟨by decide,
    build_message_distinct_message_ids 0 1 "What time is it?" "again"
      none none (some "t1") (some "c1") (by decide)⟩

/-- C8: `print_json_response` always produces its printed lines and never
propagates an exception: for a successful formatting outcome it prints the
header and the highlighted rendering, and on any internal formatting
failure it falls back to printing the formatting error message and then the
payload's raw representation, whatever the payload and title are. -/
theorem print_json_response_never_raises (fmt : Except String String)
    (payload_repr title : String) :
    (∀ j, fmt = Except.ok j →
      print_json_response fmt payload_repr title =
        [PrintEvent.header title, PrintEvent.highlighted j]) ∧
    (∀ e, fmt = Except.error e →
      print_json_response fmt payload_repr title =
        [PrintEvent.header title, PrintEvent.formatError e,
          PrintEvent.rawRepr payload_repr]) := by
  constructor
  · rintro j rfl
    rfl
  · rintro e rfl
    rfl

/-- C8, witness: a concrete formatting failure falls back to the error
message plus the raw representation. -/
theorem print_json_response_never_raises_witness :
    (Except.error "Object of type Task is not JSON serializable" :
        Except String String) =
      Except.error "Object of type Task is not JSON serializable" ∧
    print_json_response (Except.error "Object of type Task is not JSON serializable")
        "<Task object>" "Agent Reply" =
      [PrintEvent.header "Agent Reply",
        PrintEvent.formatError "Object of type Task is not JSON serializable",
        PrintEvent.rawRepr "<Task object>"] :=
  ⟨rfl,
    (print_json_response_never_raises
        (Except.error "Object of type Task is not JSON serializable")
        "<Task object>" "Agent Reply").2
      "Object of type Task is not JSON serializable" rfl⟩

/-- C6: a submission whose scripted response yields zero items and raises
nothing reports the no-response condition and returns normally (no
exception in the outcome): the run is exactly the submit event followed by
the no-response report. -/
theorem empty_response_reports_no_response (fuel : Nat) (ins : List String)
    (rrest : List Response) (ctr : Nat) (text : String) (tid cid : Option String) :
    handle_message (fuel + 1) ⟨ins, ⟨[], none⟩ :: rrest, ctr⟩ text tid cid =
      some ([Event.submit (build_message text tid cid (uuid4_hex ctr)), Event.noResponse],
        Outcome.ret, ⟨ins, rrest, ctr + 1⟩) :=
  rfl

/-- C7: a terminal (non-tuple) message item is rendered as an agent reply
and causes no recursive submission and no operator prompt: draining
`message body :: rest` renders the reply and continues with `rest` in the
unchanged environment state (no input line consumed, no script entry
consumed, no identifier generated); and a submission whose whole response
is a single terminal message item produces exactly the submit event and the
reply rendering, returning normally. -/
theorem terminal_message_renders_no_recursion (fuel : Nat) (body : String)
    (rest : List ResponseItem) (err : Option Exc) (s : HState)
    (ins : List String) (rrest : List Response) (ctr : Nat)
    (text : String) (tid cid : Option String) :
    drain_items fuel (ResponseItem.message body :: rest) err s =
      (match drain_items fuel rest err s with
       | none => none
       | some (rtr, o, s2) => some (Event.renderAgentReply body :: rtr, o, s2)) ∧
    handle_message (fuel + 1)
        ⟨ins, ⟨[ResponseItem.message body], none⟩ :: rrest, ctr⟩ text tid cid =
      some ([Event.submit (build_message text tid cid (uuid4_hex ctr)),
        Event.renderAgentReply body], Outcome.ret, ⟨ins, rrest, ctr + 1⟩) :=
  ⟨rfl, rfl⟩

/-- C4: an operator line whose stripped form compares case-insensitively
equal to `exit` or `quit` terminates the interactive loop cleanly: the run
is just the prompt and the farewell, it returns normally, and no submission
event (no submit-and-drain invocation) occurs in it. -/
theorem exit_word_terminates_loop (fuel : Nat) (q : String) (rest : List String)
    (scr : List Response) (ctr : Nat)
    (h : py_lower (py_strip q) ∈ exit_words) :
    interactive_loop (fuel + 1) ⟨q :: rest, scr, ctr⟩ =
      some ([Event.queryPrompt (py_strip q), Event.exitMsg], Outcome.ret) ∧
    ∀ m, Event.submit m ∉ [Event.queryPrompt (py_strip q), Event.exitMsg] := by
  constructor
  · simp only [interactive_loop]
    rw [if_pos h]
  · intro m
    simp

/-- C4, witness: the line `EXIT  ` (uppercase, trailing blanks) exits
without any submission. -/
theorem exit_word_terminates_loop_witness :
    py_lower (py_strip "EXIT  ") ∈ exit_words ∧
    (interactive_loop 1 ⟨["EXIT  "], [], 0⟩ =
        some ([Event.queryPrompt (py_strip "EXIT  "), Event.exitMsg], Outcome.ret) ∧
      ∀ m, Event.submit m ∉ [Event.queryPrompt (py_strip "EXIT  "), Event.exitMsg]) :=
  ⟨by decide, exit_word_terminates_loop 0 "EXIT  " [] [] 0 (by decide)⟩

/-- C5: an operator line that is not an exit keyword is submitted exactly
once as a brand-new top-level query: the loop invokes `handle_message`
exactly once on the stripped line with both correlation identifiers absent,
and the run is the prompt followed by that single submission's trace and
then, when the submission returns normally, by the loop's trace on the
remaining input lines only - the line itself is consumed and never
resubmitted; if the submission raises, the loop ends with that exception. -/
theorem non_exit_line_submitted_once (fuel : Nat) (q : String) (rest : List String)
    (scr : List Response) (ctr : Nat) (tr : List Event) (o : Outcome)
    (h : py_lower (py_strip q) ∉ exit_words)
    (hrun : interactive_loop (fuel + 1) ⟨q :: rest, scr, ctr⟩ = some (tr, o)) :
    ∃ tr1 o1 s1,
      handle_message fuel ⟨rest, scr, ctr⟩ (py_strip q) none none = some (tr1, o1, s1) ∧
      (o1 = Outcome.ret → ∃ tr2, interactive_loop fuel s1 = some (tr2, o) ∧
        tr = Event.queryPrompt (py_strip q) :: (tr1 ++ tr2)) ∧
      (∀ e, o1 = Outcome.raised e →
        tr = Event.queryPrompt (py_strip q) :: tr1 ∧ o = Outcome.raised e) := by
  simp only [interactive_loop] at hrun
  rw [if_neg h] at hrun
  rcases hm : handle_message fuel ⟨rest, scr, ctr⟩ (py_strip q) none none with _ | ⟨tr1, o1, s1⟩
  · rw [hm] at hrun
    exact Option.noConfusion hrun
  · rw [hm] at hrun
    cases o1 with
    | ret =>
      dsimp only at hrun
      refine ⟨tr1, Outcome.ret, s1, rfl, ?_, ?_⟩
      · intro _
        rcases hl : interactive_loop fuel s1 with _ | ⟨tr2, o2⟩ <;> rw [hl] at hrun
        · exact Option.noConfusion hrun
        · injection hrun with hrun
          injection hrun with h1 h2
          exact ⟨tr2, by rw [h2], h1.symm⟩
      · intro e he
        exact Outcome.noConfusion he
    | raised e0 =>
      dsimp only at hrun
      injection hrun with hrun
      injection hrun with h1 h2
      refine ⟨tr1, Outcome.raised e0, s1, rfl, ?_, ?_⟩
      · intro hcon
        exact Outcome.noConfusion hcon
      · intro e he
        injection he with he
        subst he
        exact ⟨h1.symm, h2.symm⟩

/-- C5, witness: the line `hello` is submitted once with no correlation
identifiers; its response script is empty-itemed, so the submission
returns normally and the loop continues on the (empty) remaining input. -/
theorem non_exit_line_submitted_once_witness :
    py_lower (py_strip "hello") ∉ exit_words ∧
    interactive_loop 2 ⟨["hello"], [⟨[], none⟩], 0⟩ =
      some ([Event.queryPrompt "hello",
        Event.submit (build_message "hello" none none (uuid4_hex 0)), Event.noResponse],
        Outcome.raised (Exc.other eof_name eof_msg)) ∧
    (∃ tr1 o1 s1,
      handle_message 1 ⟨[], [⟨[], none⟩], 0⟩ (py_strip "hello") none none =
        some (tr1, o1, s1) ∧
      (o1 = Outcome.ret → ∃ tr2, interactive_loop 1 s1 =
          some (tr2, Outcome.raised (Exc.other eof_name eof_msg)) ∧
        [Event.queryPrompt "hello",
          Event.submit (build_message "hello" none none (uuid4_hex 0)), Event.noResponse] =
          Event.queryPrompt (py_strip "hello") :: (tr1 ++ tr2)) ∧
      (∀ e, o1 = Outcome.raised e →
        [Event.queryPrompt "hello",
          Event.submit (build_message "hello" none none (uuid4_hex 0)), Event.noResponse] =
          Event.queryPrompt (py_strip "hello") :: tr1 ∧
        Outcome.raised (Exc.other eof_name eof_msg) = Outcome.raised e)) :=
  ⟨by decide, by decide,
    non_exit_line_submitted_once 1 "hello" [] [⟨[], none⟩] 0
      [Event.queryPrompt "hello",
        Event.submit (build_message "hello" none none (uuid4_hex 0)), Event.noResponse]
      (Outcome.raised (Exc.other eof_name eof_msg)) (by decide) (by decide)⟩

/-- C1: draining a `(Task, Update)` item whose task state is
`input-required` renders the update, prompts the operator for exactly one
more line (the next pending input line), and issues exactly one recursive
submission, a `handle_message` call whose task and context identifiers are
taken from that task (`t.id` and `t.context_id`); the nested submission
fully resolves, reaching state `s1`, before the remaining items of the
current sequence are drained starting from `s1`; and if the nested
submission raises, the remaining items are never drained and the exception
propagates. -/
theorem input_required_prompts_and_recurses_once (fuel : Nat) (t : Task) (u : Update)
    (rest : List ResponseItem) (err : Option Exc) (reply : String) (ins : List String)
    (scr : List Response) (ctr : Nat) (tr : List Event) (o : Outcome) (s2 : HState)
    (hstate : t.status.state = TaskState.input_required)
    (hrun : drain_items fuel (ResponseItem.pair t u :: rest) err ⟨reply :: ins, scr, ctr⟩ =
      some (tr, o, s2)) :
    ∃ ntr no s1,
      handle_message fuel ⟨ins, scr, ctr⟩ reply (some t.id) (some t.context_id) =
        some (ntr, no, s1) ∧
      (no = Outcome.ret → ∃ rtr, drain_items fuel rest err s1 = some (rtr, o, s2) ∧
        tr = Event.renderStreamingUpdate t u :: Event.followUpPrompt reply ::
          (ntr ++ rtr)) ∧
      (∀ e, no = Outcome.raised e →
        tr = Event.renderStreamingUpdate t u :: Event.followUpPrompt reply :: ntr ∧
        o = Outcome.raised e ∧ s2 = s1) := by
  simp only [drain_items, drain_step] at hrun
  rw [if_pos hstate] at hrun
  rcases hm : handle_message fuel ⟨ins, scr, ctr⟩ reply (some t.id) (some t.context_id)
    with _ | ⟨ntr, no, s1⟩
  · rw [hm] at hrun
    exact Option.noConfusion hrun
  · rw [hm] at hrun
    cases no with
    | ret =>
      dsimp only at hrun
      refine ⟨ntr, Outcome.ret, s1, rfl, ?_, ?_⟩
      · intro _
        rcases hl : drain_step (handle_message fuel) rest err s1 with _ | ⟨rtr, o2, s3⟩ <;>
          rw [hl] at hrun
        · exact Option.noConfusion hrun
        · injection hrun with hrun
          injection hrun with h1 hrun
          injection hrun with h2 h3
          exact ⟨rtr, by rw [drain_items, hl, h2, h3], h1.symm⟩
      · intro e he
        exact Outcome.noConfusion he
    | raised e0 =>
      dsimp only at hrun
      injection hrun with hrun
      injection hrun with h1 hrun
      injection hrun with h2 h3
      refine ⟨ntr, Outcome.raised e0, s1, rfl, ?_, ?_⟩
      · intro hcon
        exact Outcome.noConfusion hcon
      · intro e he
        injection he with he
        subst he
        exact ⟨h1.symm, h2.symm, h3.symm⟩

/-- C1, witness: a single input-required pair; the fed follow-up line
`continue` is submitted once with the task's identifiers and resolves
before the (empty) remainder of the sequence. -/
theorem input_required_prompts_and_recurses_once_witness :
    (Task.mk "t1" "c1" ⟨TaskState.input_required⟩).status.state =
      TaskState.input_required ∧
    drain_items 1 [ResponseItem.pair (Task.mk "t1" "c1" ⟨TaskState.input_required⟩) ⟨"up"⟩]
        none ⟨["continue"], [⟨[], none⟩], 0⟩ =
      some ([Event.renderStreamingUpdate (Task.mk "t1" "c1" ⟨TaskState.input_required⟩) ⟨"up"⟩,
        Event.followUpPrompt "continue",
        Event.submit (build_message "continue" (some "t1") (some "c1") (uuid4_hex 0)),
        Event.noResponse], Outcome.ret, ⟨[], [], 1⟩) ∧
    (∃ ntr no s1,
      handle_message 1 ⟨[], [⟨[], none⟩], 0⟩ "continue"
          (some (Task.mk "t1" "c1" ⟨TaskState.input_required⟩).id)
          (some (Task.mk "t1" "c1" ⟨TaskState.input_required⟩).context_id) =
        some (ntr, no, s1) ∧
      (no = Outcome.ret → ∃ rtr, drain_items 1 [] none s1 =
          some (rtr, Outcome.ret, (⟨[], [], 1⟩ : HState)) ∧
        [Event.renderStreamingUpdate (Task.mk "t1" "c1" ⟨TaskState.input_required⟩) ⟨"up"⟩,
          Event.followUpPrompt "continue",
          Event.submit (build_message "continue" (some "t1") (some "c1") (uuid4_hex 0)),
          Event.noResponse] =
          Event.renderStreamingUpdate (Task.mk "t1" "c1" ⟨TaskState.input_required⟩) ⟨"up"⟩ ::
            Event.followUpPrompt "continue" :: (ntr ++ rtr)) ∧
      (∀ e, no = Outcome.raised e →
        [Event.renderStreamingUpdate (Task.mk "t1" "c1" ⟨TaskState.input_required⟩) ⟨"up"⟩,
          Event.followUpPrompt "continue",
          Event.submit (build_message "continue" (some "t1") (some "c1") (uuid4_hex 0)),
          Event.noResponse] =
          Event.renderStreamingUpdate (Task.mk "t1" "c1" ⟨TaskState.input_required⟩) ⟨"up"⟩ ::
            Event.followUpPrompt "continue" :: ntr ∧
        Outcome.ret = Outcome.raised e ∧ (⟨[], [], 1⟩ : HState) = s1)) :=
  ⟨rfl, rfl,
    input_required_prompts_and_recurses_once 1
      (Task.mk "t1" "c1" ⟨TaskState.input_required⟩) ⟨"up"⟩ [] none "continue" []
      [⟨[], none⟩] 0
      [Event.renderStreamingUpdate (Task.mk "t1" "c1" ⟨TaskState.input_required⟩) ⟨"up"⟩,
        Event.followUpPrompt "continue",
        Event.submit (build_message "continue" (some "t1") (some "c1") (uuid4_hex 0)),
        Event.noResponse] Outcome.ret ⟨[], [], 1⟩ rfl rfl⟩

/-- C3: the exception filter of submit-and-drain. If draining the scripted
response raises an exception, then: when it is the iteration-termination
error (a `RuntimeError` whose string mentions `StopAsyncIteration`) the run
appends the recoverable disconnect warning and returns normally, so the
caller's loop can continue; any other exception propagates to the caller
unchanged. -/
theorem disconnect_warning_or_propagate (fuel : Nat) (ins : List String)
    (resp : Response) (rrest : List Response) (ctr : Nat)
    (text : String) (tid cid : Option String)
    (dtr : List Event) (e : Exc) (s2 : HState)
    (hdrain : drain_items fuel resp.items resp.err ⟨ins, rrest, ctr + 1⟩ =
      some (dtr, Outcome.raised e, s2)) :
    handle_message (fuel + 1) ⟨ins, resp :: rrest, ctr⟩ text tid cid =
      (if is_sai_error e then
        some (Event.submit (build_message text tid cid (uuid4_hex ctr)) ::
          (dtr ++ [Event.disconnectWarning]), Outcome.ret, s2)
      else
        some (Event.submit (build_message text tid cid (uuid4_hex ctr)) :: dtr,
          Outcome.raised e, s2)) := by
  simp only [drain_items] at hdrain
  simp only [handle_message]
  rw [hdrain]

/-- C3, witness: a response whose iterator raises
`RuntimeError("coroutine raised StopAsyncIteration")` after zero items is
downgraded to the disconnect warning and a normal return. -/
theorem disconnect_warning_or_propagate_witness :
    drain_items 0 (Response.mk [] (some (Exc.runtimeError
        "coroutine raised StopAsyncIteration"))).items
      (Response.mk [] (some (Exc.runtimeError
        "coroutine raised StopAsyncIteration"))).err ⟨[], [], 1⟩ =
      some ([], Outcome.raised (Exc.runtimeError
        "coroutine raised StopAsyncIteration"), ⟨[], [], 1⟩) ∧
    handle_message 1 ⟨[], [Response.mk [] (some (Exc.runtimeError
        "coroutine raised StopAsyncIteration"))], 0⟩ "hi" none none =
      (if is_sai_error (Exc.runtimeError "coroutine raised StopAsyncIteration") then
        some (Event.submit (build_message "hi" none none (uuid4_hex 0)) ::
          ([] ++ [Event.disconnectWarning]), Outcome.ret, (⟨[], [], 1⟩ : HState))
      else
        some ([Event.submit (build_message "hi" none none (uuid4_hex 0))],
          Outcome.raised (Exc.runtimeError "coroutine raised StopAsyncIteration"),
          (⟨[], [], 1⟩ : HState))) :=
  ⟨rfl,
    disconnect_warning_or_propagate 0 []
      (Response.mk [] (some (Exc.runtimeError "coroutine raised StopAsyncIteration")))
      [] 0 "hi" none none []
      (Exc.runtimeError "coroutine raised StopAsyncIteration") ⟨[], [], 1⟩ rfl⟩

end A2AClient
